import Mathlib

/-!
Shallow embedding of the nutrition-estimation pipeline of the
health-tracker repository.

Sources embedded:
- the serverless nutrition endpoint (orchestrator `handler`, provider
  clients `fetchFromApiNinjas` and `fetchFromOpenFoodFacts`, portion
  inference `portionFromQueryOrProduct`, helpers `hasNutriments`, `num`,
  `round2`);
- the client-side local estimator (`estimateFood` over `MINI_DB`).

Modelling conventions:
- JavaScript numbers are modelled by `JsNum`: either NaN or an exact
  rational.  (Finite-precision float rounding and infinities are outside
  the model; all computations verified here stay well within exact decimal
  arithmetic.  `Number.EPSILON` in `round2` exists only to compensate
  float artifacts and is dropped.)
- JSON leaf values reaching the numeric helpers are modelled by `JsVal`
  (number, string, or null), enough to express JavaScript truthiness and
  `Number(...)` coercion as the source relies on them.
- `Math.round` is round-half-up (`⌊x + 1/2⌋`), matching JavaScript on
  finite inputs.
- string scanning: the regex literals of the source are embedded as
  explicit left-to-right scanners.  For these particular patterns
  (`\d+(\.\d+)?` followed by `\s*` and a literal), maximal-munch scanning
  agrees with backtracking regex search, since shortening a digit or
  fraction run always leaves a digit or a dot as the next character, which
  can match neither `\s` nor the literal.  `\s` is modelled by
  `Char.isWhitespace`, `\w` by ASCII alphanumerics and underscore, and
  case-insensitivity by comparing lowered characters.  Exponent and hex
  numeric literals (absent from the relevant data) are not modelled.
- network effects: each provider call's outcome (rejection, HTTP status,
  body parse result) is an explicit parameter, and a thrown JavaScript
  exception is the `thrown` constructor of `CallResult`.
-/

/-- JavaScript number: NaN or a finite value (exact rational model). -/
inductive JsNum where
  | nan : JsNum
  | fin : ℚ → JsNum
deriving DecidableEq, Repr

/-- JSON leaf value as seen by the numeric helpers: number, string or null. -/
inductive JsVal where
  | vNum : ℚ → JsVal
  | vStr : String → JsVal
  | vNull : JsVal
deriving DecidableEq, Repr

/-- JavaScript truthiness of a `JsNum` (0 and NaN are falsy). -/
def jtruthy : JsNum → Bool
  | .nan => false
  | .fin q => decide (q ≠ 0)

/-- JavaScript truthiness of a `JsVal` (0, empty string and null are falsy). -/
def jvTruthy : JsVal → Bool
  | .vNum q => decide (q ≠ 0)
  | .vStr s => decide (s ≠ "")
  | .vNull => false

/-- JavaScript addition (NaN-propagating). -/
def jadd : JsNum → JsNum → JsNum
  | .fin a, .fin b => .fin (a + b)
  | _, _ => .nan

/-- JavaScript multiplication (NaN-propagating). -/
def jmul : JsNum → JsNum → JsNum
  | .fin a, .fin b => .fin (a * b)
  | _, _ => .nan

/-- JavaScript division by a nonzero rational constant (NaN-propagating). -/
def jdivQ : JsNum → ℚ → JsNum
  | .nan, _ => .nan
  | .fin a, c => .fin (a / c)

/-- JavaScript `<=` (false whenever either side is NaN). -/
def jle : JsNum → JsNum → Bool
  | .fin a, .fin b => decide (a ≤ b)
  | _, _ => false

/-- JavaScript `>` (false whenever either side is NaN). -/
def jgt : JsNum → JsNum → Bool
  | .fin a, .fin b => decide (b < a)
  | _, _ => false

/-- JavaScript `a || b` on numbers: `b` when `a` is falsy. -/
def jor (a b : JsNum) : JsNum := if jtruthy a then a else b

/-- `Math.round`: round half up on finite values, NaN otherwise. -/
def jround : JsNum → JsNum
  | .nan => .nan
  | .fin q => .fin ((⌊q + 1 / 2⌋ : ℤ) : ℚ)

/-- Source helper `round2`: round to 2 decimals (the `Number.EPSILON` nudge
of the source corrects float artifacts and is a no-op in the exact model). -/
def round2 : JsNum → JsNum
  | .nan => .nan
  | .fin q => .fin (((⌊q * 100 + 1 / 2⌋ : ℤ) : ℚ) / 100)

/-- Numeric value of a list of decimal digit characters. -/
def digitsToNat (l : List Char) : ℕ :=
  l.foldl (fun n c => 10 * n + (c.toNat - 48)) 0

/-- Rational value of an integer digit part and a fractional digit part. -/
def ratVal (ds fs : List Char) : ℚ :=
  (digitsToNat ds : ℚ) + (digitsToNat fs : ℚ) / (10 : ℚ) ^ fs.length

/-- Full-string unsigned numeric parse (used by `Number(...)` coercion):
`d+`, `d+.d*` or `.d+`, with nothing left over; `none` means NaN. -/
def parseUnsignedFull (l : List Char) : Option ℚ :=
  let ds := l.takeWhile Char.isDigit
  match l.dropWhile Char.isDigit with
  | [] => if ds = [] then none else some ((digitsToNat ds : ℚ))
  | '.' :: r2 =>
    let fs := r2.takeWhile Char.isDigit
    if r2.dropWhile Char.isDigit = [] then
      if ds = [] ∧ fs = [] then none else some (ratVal ds fs)
    else none
  | _ => none

/-- `Number(string)`: trim whitespace, empty is 0, else a full numeric
parse with optional sign; failure is NaN. -/
def jsStrToNumber (s : String) : JsNum :=
  let l := ((s.toList.dropWhile Char.isWhitespace).reverse.dropWhile
    Char.isWhitespace).reverse
  if l = [] then .fin 0
  else
    match l with
    | '+' :: r => match parseUnsignedFull r with
      | some q => .fin q
      | none => .nan
    | '-' :: r => match parseUnsignedFull r with
      | some q => .fin (-q)
      | none => .nan
    | _ => match parseUnsignedFull l with
      | some q => .fin q
      | none => .nan

/-- `Number(v)` coercion of a JSON leaf value. -/
def jsToNumber : JsVal → JsNum
  | .vNum q => .fin q
  | .vStr s => jsStrToNumber s
  | .vNull => .fin 0

/-- Source helper `num = (v) => (v ? Number(v) : 0)`: absent and falsy
values give 0, truthy values are coerced with `Number`. -/
def num (v : Option JsVal) : JsNum :=
  match v with
  | none => .fin 0
  | some x => if jvTruthy x then jsToNumber x else .fin 0

/-- Leading-prefix numeric magnitude for `parseFloat`: maximal
`d+`, `d+.d*` or `.d+` prefix, ignoring what follows. -/
def parseFloatMag (l : List Char) : Option ℚ :=
  let ds := l.takeWhile Char.isDigit
  match ds, l.dropWhile Char.isDigit with
  | [], '.' :: r2 =>
    let fs := r2.takeWhile Char.isDigit
    if fs = [] then none else some (ratVal [] fs)
  | [], _ => none
  | _, '.' :: r2 => some (ratVal ds (r2.takeWhile Char.isDigit))
  | _, _ => some ((digitsToNat ds : ℚ))

/-- `parseFloat(string)`: skip leading whitespace, optional sign, then a
leading numeric prefix; `none` means NaN. -/
def jsParseFloat (s : String) : Option ℚ :=
  match s.toList.dropWhile Char.isWhitespace with
  | '+' :: r => parseFloatMag r
  | '-' :: r => (parseFloatMag r).map Neg.neg
  | l => parseFloatMag l

/-- Greedy `\d+(\.\d+)?` at a position assumed to start with a digit;
returns the value and the remaining characters. -/
def numAt (l : List Char) : ℚ × List Char :=
  let ds := l.takeWhile Char.isDigit
  match l.dropWhile Char.isDigit with
  | '.' :: r2 =>
    let fs := r2.takeWhile Char.isDigit
    if fs = [] then ((digitsToNat ds : ℚ), '.' :: r2)
    else (ratVal ds fs, r2.dropWhile Char.isDigit)
  | r => ((digitsToNat ds : ℚ), r)

/-- ASCII word character, as in the regex class `\w`. -/
def isWordChar (c : Char) : Bool := c.isAlphanum || c = '_'

/-- Word boundary `\b` between a word character and the rest of the input. -/
def boundaryAfter : List Char → Bool
  | [] => true
  | c :: _ => !(isWordChar c)

/-- Case-insensitive literal match; returns the remainder on success. -/
def stripCI : List Char → List Char → Option (List Char)
  | [], l => some l
  | p :: ps, c :: cs => if c.toLower = p then stripCI ps cs else none
  | _ :: _, [] => none

/-- Unit alternation `(g|gram|grams)\b` of the query regex, tried in the
regex's backtracking order. -/
def unitBoundaryMatch (l : List Char) : Bool :=
  match stripCI ['g'] l with
  | none => false
  | some r =>
    boundaryAfter r ||
      (match stripCI ['r', 'a', 'm'] r with
       | some r2 =>
         boundaryAfter r2 ||
           (match stripCI ['s'] r2 with
            | some r3 => boundaryAfter r3
            | none => false)
       | none => false)

/-- First match of `(\d+(?:\.\d+)?)\s*(g|gram|grams)\b` (case-insensitive),
the gram pattern applied to the user query. -/
def scanQueryGram : List Char → Option ℚ
  | [] => none
  | c :: rest =>
    if c.isDigit then
      let p := numAt (c :: rest)
      if unitBoundaryMatch (p.2.dropWhile Char.isWhitespace) then some p.1
      else scanQueryGram rest
    else scanQueryGram rest

/-- First match of `(\d+(?:\.\d+)?)\s*g` (case-insensitive), the gram
pattern applied to `serving_size` and `quantity` texts. -/
def scanGram : List Char → Option ℚ
  | [] => none
  | c :: rest =>
    if c.isDigit then
      let p := numAt (c :: rest)
      match p.2.dropWhile Char.isWhitespace with
      | g :: _ => if g.toLower = 'g' then some p.1 else scanGram rest
      | [] => scanGram rest
    else scanGram rest

/-- First match of `(\d+)\s*x\s*(\d+(?:\.\d+)?)\s*g` (case-insensitive),
the multipack pattern; the value is `parseInt(m[1]) * parseFloat(m[2])`. -/
def scanMultipack : List Char → Option ℚ
  | [] => none
  | c :: rest =>
    if c.isDigit then
      let n := digitsToNat ((c :: rest).takeWhile Char.isDigit)
      match ((c :: rest).dropWhile Char.isDigit).dropWhile Char.isWhitespace with
      | x :: r2 =>
        if x.toLower = 'x' then
          match r2.dropWhile Char.isWhitespace with
          | d :: r3 =>
            if d.isDigit then
              let p := numAt (d :: r3)
              match p.2.dropWhile Char.isWhitespace with
              | g :: _ =>
                if g.toLower = 'g' then some ((n : ℚ) * p.1)
                else scanMultipack rest
              | [] => scanMultipack rest
            else scanMultipack rest
          | [] => scanMultipack rest
        else scanMultipack rest
      | [] => scanMultipack rest
    else scanMultipack rest

/-- First match of `(\d+\.?\d*)`, the quantity pattern of the local
estimator; always succeeds at the first digit of the text. -/
def scanFirstNumber : List Char → Option ℚ
  | [] => none
  | c :: rest =>
    if c.isDigit then
      let ds := (c :: rest).takeWhile Char.isDigit
      match (c :: rest).dropWhile Char.isDigit with
      | '.' :: r2 => some (ratVal ds (r2.takeWhile Char.isDigit))
      | _ => some ((digitsToNat ds : ℚ))
    else scanFirstNumber rest

/-- Contiguous-sublist test on character lists. -/
def isInfixList : List Char → List Char → Bool
  | needle, [] => decide (needle = [])
  | needle, c :: rest => needle.isPrefixOf (c :: rest) || isInfixList needle rest

/-- JavaScript substring test `hay.includes(needle)`. -/
def substrOf (needle hay : String) : Bool :=
  isInfixList needle.toList hay.toList

/-- Whitespace trim at both ends of a character list. -/
def trimChars (l : List Char) : List Char :=
  ((l.dropWhile Char.isWhitespace).reverse.dropWhile Char.isWhitespace).reverse

/-- JavaScript `trim()` on strings. -/
def jsTrim (s : String) : String := ⟨trimChars s.toList⟩

/-- Normalization of the local estimator: `toLowerCase().trim()`. -/
def normText (s : String) : String := ⟨trimChars (s.toList.map Char.toLower)⟩

/-- Entry of the in-app reference table `MINI_DB`. -/
structure MiniEntry where
  key : String
  kcal : ℚ
  p : ℚ
  c : ℚ
  f : ℚ
  unit : String
deriving DecidableEq, Repr

/-- The fixed in-app reference table `MINI_DB`, in declaration order. -/
def MINI_DB : List MiniEntry :=
  [⟨"roasted chicken breast", 165, 31, 0, 3.6, "per 100g"⟩,
   ⟨"banana", 105, 1.3, 27, 0.3, "per medium"⟩,
   ⟨"oat milk", 120, 3, 16, 5, "per 250ml"⟩,
   ⟨"cooked rice", 206, 4.3, 45, 0.4, "per cup"⟩,
   ⟨"avocado", 240, 3, 12.5, 22, "per fruit"⟩,
   ⟨"egg", 78, 6, 0.6, 5, "per egg"⟩,
   ⟨"olive oil tbsp", 119, 0, 0, 13.5, "per tbsp"⟩,
   ⟨"protein bar", 200, 20, 20, 7, "per bar"⟩,
   ⟨"greek yogurt 0%", 59, 10, 3.6, 0.4, "per 100g"⟩,
   ⟨"pasta cooked", 220, 8, 43, 1.3, "per cup"⟩]

/-- Macro block of a local food estimate. -/
structure Macros where
  protein_g : ℚ
  carbs_g : ℚ
  fat_g : ℚ
deriving DecidableEq, Repr

/-- Return value of the local estimator `estimateFood`. -/
structure FoodEstimate where
  description : String
  kcal : ℚ
  macros : Macros
  source : String
deriving DecidableEq, Repr

/-- The local estimator `estimateFood` of `App.jsx`: first reference-table
substring match wins, quantity is the first `(\d+\.?\d*)` match of the
normalized text (default 1); otherwise keyword heuristics, then a fixed
generic estimate. -/
def estimateFood (description : String) : FoodEstimate :=
  match MINI_DB.find? (fun x => substrOf x.key (normText description)) with
  | some hit =>
    let qty := (scanFirstNumber (normText description).toList).getD 1
    { description := description
      kcal := hit.kcal * qty
      macros := ⟨hit.p * qty, hit.c * qty, hit.f * qty⟩
      source := "estimation (" ++ hit.unit ++ ")" }
  | none =>
    if substrOf "chicken" (normText description) then
      ⟨description, 250, ⟨40, 0, 8⟩, "estimate"⟩
    else if substrOf "beef" (normText description) then
      ⟨description, 300, ⟨30, 0, 20⟩, "estimate"⟩
    else if substrOf "salad" (normText description) then
      ⟨description, 180, ⟨6, 12, 10⟩, "estimate"⟩
    else if substrOf "sandwich" (normText description) then
      ⟨description, 350, ⟨15, 40, 12⟩, "estimate"⟩
    else ⟨description, 250, ⟨8, 30, 10⟩, "generic estimate"⟩

/-- Summed nutrition totals, the shape `{kcal, protein_g, carbs_g, fat_g}`
shared by both provider clients and the endpoint response. -/
structure Totals where
  kcal : JsNum
  protein_g : JsNum
  carbs_g : JsNum
  fat_g : JsNum
deriving DecidableEq, Repr

/-- One matched item of the exact-match provider's JSON array; any field
may be absent. -/
structure NinjaItem where
  calories : Option JsVal
  protein_g : Option JsVal
  carbohydrates_total_g : Option JsVal
  fat_total_g : Option JsVal
deriving DecidableEq, Repr

/-- `nutriments` object of a community-database product (JSON keys
`energy-kcal_100g`, `energy_100g`, `proteins_100g`, `carbohydrates_100g`,
`carbohydrates_total_g`, `fat_100g`); any field may be absent. -/
structure Nutriments where
  energy_kcal_100g : Option JsVal
  energy_100g : Option JsVal
  proteins_100g : Option JsVal
  carbohydrates_100g : Option JsVal
  carbohydrates_total_g : Option JsVal
  fat_100g : Option JsVal
deriving DecidableEq, Repr

/-- Community-database product; `serving_size` and `quantity` are modelled
as strings when present, matching the upstream contract (the source
type-checks `serving_size` and calls `.match` on `quantity`). -/
structure Product where
  nutriments : Nutriments
  serving_size : Option String
  product_quantity : Option JsVal
  quantity : Option String
deriving DecidableEq, Repr

/-- Parsed JSON body of the exact-match provider: an array of items, or
some other JSON value (`Array.isArray` fails). -/
inductive NinjasBody where
  | nonArray : NinjasBody
  | arr : List NinjaItem → NinjasBody
deriving DecidableEq, Repr

/-- Parsed JSON body of the community-database search: `some products`
when `data?.products` is an array, `none` otherwise. -/
abbrev OffData : Type := Option (List Product)

/-- Outcome of one `fetch` round trip: the promise rejects (network-level
failure), or a response arrives with an HTTP ok-flag and a body that either
fails JSON parsing or yields a parsed value. -/
inductive FetchOutcome (β : Type) where
  | reject : FetchOutcome β
  | response : Bool → Option β → FetchOutcome β
deriving DecidableEq, Repr

/-- Result of one provider-client invocation: a thrown JavaScript
exception, or a returned value (absent or totals). -/
inductive CallResult where
  | thrown : CallResult
  | value : Option Totals → CallResult
deriving DecidableEq, Repr

/-- The summation loop of `fetchFromApiNinjas`: add `num` of each nutrient
field of every item onto zero-initialized totals. -/
def sumTotals (items : List NinjaItem) : Totals :=
  items.foldl
    (fun t it =>
      { kcal := jadd t.kcal (num it.calories)
        protein_g := jadd t.protein_g (num it.protein_g)
        carbs_g := jadd t.carbs_g (num it.carbohydrates_total_g)
        fat_g := jadd t.fat_g (num it.fat_total_g) })
    ⟨.fin 0, .fin 0, .fin 0, .fin 0⟩

/-- Exact-match provider client `fetchFromApiNinjas`: absent key returns
null before any call; a rejected fetch or an unparseable body throws; a
non-ok status, a non-array or empty body, or a summed kcal `<= 0` returns
null; otherwise the summed totals. -/
def fetchFromApiNinjas (query : String) (key : Option String)
    (net : FetchOutcome NinjasBody) : CallResult :=
  if key.getD "" = "" then .value none
  else
    match net with
    | .reject => .thrown
    | .response ok body =>
      if !ok then .value none
      else
        match body with
        | none => .thrown
        | some .nonArray => .value none
        | some (.arr items) =>
          if items.isEmpty then .value none
          else
            let totals := sumTotals items
            if jle totals.kcal (.fin 0) then .value none
            else .value (some totals)

/-- Source helper `hasNutriments`: at least one of the five recognized
per-100g fields is present and truthy (non-zero, non-empty). -/
def hasNutriments (p : Product) : Bool :=
  (match p.nutriments.energy_kcal_100g with
   | some v => jvTruthy v
   | none => false) ||
  (match p.nutriments.energy_100g with
   | some v => jvTruthy v
   | none => false) ||
  (match p.nutriments.proteins_100g with
   | some v => jvTruthy v
   | none => false) ||
  (match p.nutriments.carbohydrates_100g with
   | some v => jvTruthy v
   | none => false) ||
  (match p.nutriments.fat_100g with
   | some v => jvTruthy v
   | none => false)

/-- Energy normalization of `fetchFromOpenFoodFacts`: `num` of the direct
kcal-per-100g field; if falsy and the kJ field is truthy, `Math.round` of
kJ divided by 4.184. -/
def resolveKcalPer100 (n : Nutriments) : JsNum :=
  let kcal1 := num n.energy_kcal_100g
  if jtruthy kcal1 then kcal1
  else
    let kj := num n.energy_100g
    if jtruthy kj then jround (jdivQ kj (4184 / 1000)) else kcal1

/-- Numeric reading of `product_quantity` for `parseFloat` (JavaScript
coerces the argument to a string first). -/
def pqNumeric : JsVal → Option ℚ
  | .vNum q => some q
  | .vStr s => jsParseFloat s
  | .vNull => none

/-- Portion inference `portionFromQueryOrProduct`, rules in source order:
query gram pattern, serving-size gram pattern, positive numeric
`product_quantity`, then the `quantity` text (plain gram pattern first,
multipack second); null if nothing matched. -/
def portionFromQueryOrProduct (query : String) (product : Product) :
    Option ℚ :=
  match scanQueryGram query.toList with
  | some v => some v
  | none =>
    let step4 : Option ℚ :=
      match product.quantity with
      | some qs =>
        if qs = "" then none
        else
          match scanGram qs.toList with
          | some v => some v
          | none => scanMultipack qs.toList
      | none => none
    let step3 : Option ℚ :=
      match product.product_quantity with
      | some pv =>
        if jvTruthy pv then
          match pqNumeric pv with
          | some q => if 0 < q then some q else step4
          | none => step4
        else step4
      | none => step4
    match product.serving_size with
    | some ss =>
      match scanGram ss.toList with
      | some v => some v
      | none => step3
    | none => step3

/-- JavaScript `x || d` on an optional portion: the default applies when
the portion is null or 0. -/
def jsOrQ (v : Option ℚ) (d : ℚ) : ℚ :=
  match v with
  | some q => if q = 0 then d else q
  | none => d

/-- Pure part of `fetchFromOpenFoodFacts` after the response is parsed:
candidate selection, energy normalization, portion inference and scaling. -/
def offProcess (query : String) (products : List Product) : Option Totals :=
  match products with
  | [] => none
  | p0 :: _ =>
    let p := (products.find? hasNutriments).getD p0
    if !hasNutriments p then none
    else
      let kcalPer100 := resolveKcalPer100 p.nutriments
      if !jtruthy kcalPer100 then none
      else
        let factor := jsOrQ (portionFromQueryOrProduct query p) 100 / 100
        some
          { kcal := jround (jmul kcalPer100 (.fin factor))
            protein_g := round2 (jmul (num p.nutriments.proteins_100g)
              (.fin factor))
            carbs_g := round2 (jmul (jor (num p.nutriments.carbohydrates_100g)
              (num p.nutriments.carbohydrates_total_g)) (.fin factor))
            fat_g := round2 (jmul (num p.nutriments.fat_100g) (.fin factor)) }

/-- Community-database provider client `fetchFromOpenFoodFacts`: a
rejected fetch or unparseable body throws; a non-ok status returns null;
otherwise the parsed products list (empty when `products` is missing or
not an array) is processed purely. -/
def fetchFromOpenFoodFacts (query : String) (net : FetchOutcome OffData) :
    CallResult :=
  match net with
  | .reject => .thrown
  | .response ok body =>
    if !ok then .value none
    else
      match body with
      | none => .thrown
      | some data => .value (offProcess query (data.getD []))

/-- HTTP response of the endpoint: the 400 missing-query error, the 500
catch-all error (body `{error: String(err)}`, message not modelled), or a
200 payload `{...totals, source}`. -/
inductive Response where
  | missingQuery : Response
  | caught : Response
  | payload : Totals → String → Response
deriving DecidableEq, Repr

/-- The all-zero totals of the final `"none"` fallback. -/
def zeroTotals : Totals := ⟨.fin 0, .fin 0, .fin 0, .fin 0⟩

/-- Community-database stage of the orchestrator (the part of `handler`
after the exact-match result proved unusable). -/
def offStep (q : String) (offNet : FetchOutcome OffData) : Response :=
  match fetchFromOpenFoodFacts q offNet with
  | .thrown => .caught
  | .value (some off) =>
    if jgt off.kcal (.fin 0) then .payload off "open_food_facts"
    else .payload zeroTotals "none"
  | .value none => .payload zeroTotals "none"

/-- Orchestrator `handler`.  `qRaw` is the coalesced query parameter (empty
string when missing); the two `FetchOutcome` arguments are the would-be
outcomes of the providers' network calls.  The returned flag records
whether the community-database client was invoked. -/
def handler (qRaw : String) (key : Option String)
    (nNet : FetchOutcome NinjasBody) (offNet : FetchOutcome OffData) :
    Response × Bool :=
  if jsTrim qRaw = "" then (.missingQuery, false)
  else
    match fetchFromApiNinjas (jsTrim qRaw) key nNet with
    | .thrown => (.caught, false)
    | .value (some n) =>
      if jgt n.kcal (.fin 0) then (.payload n "api_ninjas", false)
      else (offStep (jsTrim qRaw) offNet, true)
    | .value none => (offStep (jsTrim qRaw) offNet, true)

/-- C4: for a candidate product whose `quantity` is `"3 x 60 g"`, with no
query gram pattern, no serving-size match and no package quantity, the code
infers a portion of 60 grams: the plain gram pattern matches the `"60 g"`
suffix first, so the dedicated multipack branch (which would compute
3 × 60 = 180 as the specification states) is never reached. -/
theorem multipack_portion_bug_eval :
    portionFromQueryOrProduct "snack"
        ⟨⟨none, none, none, none, none, none⟩, none, none, some "3 x 60 g"⟩ =
      some 60 ∧
    scanMultipack ("3 x 60 g".toList) = some 180 ∧
    some (60 : ℚ) ≠ some (180 : ℚ) := by
  with_unfolding_all decide

/-- C10: on the input `"greek yogurt 0%"` the local estimator matches the
reference-table entry whose key is the input itself, extracts the digit of
`"0%"` as the quantity multiplier, and therefore returns a zero estimate
with all macros zero despite the table match. -/
theorem quantity_zero_percent_eval :
    MINI_DB.find? (fun x => substrOf x.key (normText "greek yogurt 0%")) =
      some ⟨"greek yogurt 0%", 59, 10, 3.6, 0.4, "per 100g"⟩ ∧
    scanFirstNumber (normText "greek yogurt 0%").toList = some 0 ∧
    estimateFood "greek yogurt 0%" =
      ⟨"greek yogurt 0%", 0, ⟨0, 0, 0⟩, "estimation (per 100g)"⟩ := by
  with_unfolding_all decide

/-- Product with no usable energy fields, used to witness the absent case. -/
def emptyProduct : Product := ⟨⟨none, none, none, none, none, none⟩, none, none, none⟩

/-- C8: energy normalization prefers a truthy direct kcal-per-100g field;
a product with no kcal field but `energy_100g = 836` resolves to 200
kcal-per-100g (836 / 4.184 rounded) and yields a 200-kcal estimate at the
default 100 g portion; and whenever the resolved kcal-per-100g is falsy
(0, NaN or absent) the client returns absent. -/
theorem energy_normalization (nutr : Nutriments) (q : String) (p : Product)
    (k : ℚ) (hdirect : nutr.energy_kcal_100g = some (.vNum k)) (hk : k ≠ 0)
    (habsent : jtruthy (resolveKcalPer100 p.nutriments) = false) :
    resolveKcalPer100 nutr = .fin k ∧
    resolveKcalPer100 ⟨none, some (.vNum 836), none, none, none, none⟩ =
      .fin 200 ∧
    offProcess "beans"
        [⟨⟨none, some (.vNum 836), none, none, none, none⟩, none, none, none⟩]
      = some ⟨.fin 200, .fin 0, .fin 0, .fin 0⟩ ∧
    offProcess q [p] = none := by
  refine ⟨?_, ?_, ?_, ?_⟩
  · simp [resolveKcalPer100, num, hdirect, jvTruthy, jtruthy, jsToNumber, hk]
  · with_unfolding_all decide
  · with_unfolding_all decide
  · rcases hn : hasNutriments p with _ | _
    · simp [offProcess, List.find?, hn]
    · simp [offProcess, List.find?, hn, habsent]

/-- C8 witness: the direct-field case at `energy-kcal_100g = 165` and the
absent case at a product with no nutriment fields. -/
theorem energy_normalization_witness :
    resolveKcalPer100 ⟨some (.vNum 165), none, none, none, none, none⟩ =
      .fin 165 ∧
    offProcess "x" [emptyProduct] = none := by
  constructor
  · exact (energy_normalization ⟨some (.vNum 165), none, none, none, none, none⟩
      "x" emptyProduct 165 rfl (by norm_num) (by with_unfolding_all decide)).1
  · exact (energy_normalization ⟨some (.vNum 165), none, none, none, none, none⟩
      "x" emptyProduct 165 rfl (by norm_num) (by with_unfolding_all decide)).2.2.2

/-- C5: the portion rules are tried in source order with first success
winning, so a gram quantity in the query text overrides every product
metadata field; in particular, for the query `"200g chicken"` against any
product whose `energy-kcal_100g` is 165, the scaled result has kcal 330
(factor 2), whatever its serving-size, package-quantity or quantity
fields hold. -/
theorem query_gram_priority (p : Product) (q : String) (v : ℚ)
    (hp : p.nutriments.energy_kcal_100g = some (.vNum 165))
    (hq : scanQueryGram q.toList = some v) :
    portionFromQueryOrProduct q p = some v ∧
    ∃ t, offProcess "200g chicken" [p] = some t ∧ t.kcal = .fin 330 := by
  have hq' : scanQueryGram q.data = some v := hq
  constructor
  · simp [portionFromQueryOrProduct, hq']
  · have hscan :
        scanQueryGram ['2', '0', '0', 'g', ' ', 'c', 'h', 'i', 'c', 'k',
          'e', 'n'] = some 200 := by
      with_unfolding_all decide
    have hn : hasNutriments p = true := by
      simp [hasNutriments, hp, jvTruthy]
    have hres : resolveKcalPer100 p.nutriments = .fin 165 := by
      simp [resolveKcalPer100, num, hp, jvTruthy, jtruthy, jsToNumber]
    have hport : portionFromQueryOrProduct "200g chicken" p = some 200 := by
      simp [portionFromQueryOrProduct, hscan]
    have hfac : jsOrQ (portionFromQueryOrProduct "200g chicken" p) 100 / 100
        = 2 := by
      rw [hport]; simp [jsOrQ]; norm_num
    have hkcal : jround (jmul (.fin 165) (.fin 2)) = JsNum.fin 330 := by
      simp [jmul, jround]
      norm_num [Int.floor_eq_iff]
    have hoff : offProcess "200g chicken" [p] = some
        { kcal := .fin 330,
          protein_g := round2 (jmul (num p.nutriments.proteins_100g) (.fin 2)),
          carbs_g := round2 (jmul (jor (num p.nutriments.carbohydrates_100g)
            (num p.nutriments.carbohydrates_total_g)) (.fin 2)),
          fat_g := round2 (jmul (num p.nutriments.fat_100g) (.fin 2)) } := by
      simp only [offProcess, List.find?, hn, cond_true, Option.getD_some,
        Bool.not_true, hres, jtruthy, hfac, hkcal]
      norm_num
    exact ⟨_, hoff, rfl⟩

/-- C5 witness: a product carrying `serving_size = "30 g"` whose serving
size is overridden by the query text `"200g chicken"`. -/
theorem query_gram_priority_witness :
    portionFromQueryOrProduct "200g chicken"
        ⟨⟨some (.vNum 165), none, none, none, none, none⟩, some "30 g",
          none, none⟩ = some 200 ∧
    ∃ t, offProcess "200g chicken"
        [⟨⟨some (.vNum 165), none, none, none, none, none⟩, some "30 g",
          none, none⟩] = some t ∧ t.kcal = .fin 330 := by
  constructor
  · exact (query_gram_priority
      ⟨⟨some (.vNum 165), none, none, none, none, none⟩, some "30 g", none,
        none⟩ "200g chicken" 200 rfl (by with_unfolding_all decide)).1
  · exact (query_gram_priority
      ⟨⟨some (.vNum 165), none, none, none, none, none⟩, some "30 g", none,
        none⟩ "200g chicken" 200 rfl (by with_unfolding_all decide)).2

/-- C1 counterexample: with the exact-match provider returning one usable
item, the orchestrator's payload is tagged `"api_ninjas"` — not
`"exact-match-api"` — and the community tag is likewise `"open_food_facts"`,
not `"community-db"`. -/
theorem orchestrator_tag_counterexample :
    handler "chicken" (some "k")
        (.response true (some (.arr
          [⟨some (.vNum 100), some (.vNum 10), none, none⟩])))
        (.response true (some (some []))) =
      (.payload ⟨.fin 100, .fin 10, .fin 0, .fin 0⟩ "api_ninjas", false) ∧
    ("api_ninjas" : String) ≠ "exact-match-api" ∧
    ("open_food_facts" : String) ≠ "community-db" := by
  with_unfolding_all decide

/-- C1 amended: for every trimmed-nonempty query and credential, when the
exact-match client returns a result with kcal > 0 the orchestrator returns
it tagged `"api_ninjas"` without invoking the community-database client;
when the exact-match client returns absent and the community client
returns a result with kcal > 0 it is returned tagged `"open_food_facts"`;
and when both return absent the result is exactly the zero totals tagged
`"none"`. -/
theorem orchestrator_priority_amended (q : String) (key : Option String)
    (nNet : FetchOutcome NinjasBody) (offNet : FetchOutcome OffData)
    (n o : Totals) (hq : jsTrim q ≠ "") :
    (fetchFromApiNinjas (jsTrim q) key nNet = .value (some n) →
      jgt n.kcal (.fin 0) = true →
      handler q key nNet offNet = (.payload n "api_ninjas", false)) ∧
    (fetchFromApiNinjas (jsTrim q) key nNet = .value none →
      fetchFromOpenFoodFacts (jsTrim q) offNet = .value (some o) →
      jgt o.kcal (.fin 0) = true →
      handler q key nNet offNet = (.payload o "open_food_facts", true)) ∧
    (fetchFromApiNinjas (jsTrim q) key nNet = .value none →
      fetchFromOpenFoodFacts (jsTrim q) offNet = .value none →
      handler q key nNet offNet = (.payload zeroTotals "none", true)) := by
  refine ⟨?_, ?_, ?_⟩
  · intro h1 h2
    simp [handler, hq, h1, h2]
  · intro h1 h2 h3
    simp [handler, offStep, hq, h1, h2, h3]
  · intro h1 h2
    simp [handler, offStep, hq, h1, h2]

/-- C1 witness: both arms exercised at concrete inputs — an exact-match
hit returns tagged `"api_ninjas"` without the community call, and two
absent providers give the zero `"none"` payload. -/
theorem orchestrator_priority_witness :
    handler "rice" (some "k")
        (.response true (some (.arr [⟨some (.vNum 80), none, none, none⟩])))
        .reject =
      (.payload ⟨.fin 80, .fin 0, .fin 0, .fin 0⟩ "api_ninjas", false) ∧
    handler "rice" (some "k") (.response true (some (.arr [])))
        (.response true (some (some []))) =
      (.payload zeroTotals "none", true) := by
  constructor
  · exact (orchestrator_priority_amended "rice" (some "k")
      (.response true (some (.arr [⟨some (.vNum 80), none, none, none⟩])))
      .reject ⟨.fin 80, .fin 0, .fin 0, .fin 0⟩ zeroTotals
      (by with_unfolding_all decide)).1
      (by with_unfolding_all decide) (by with_unfolding_all decide)
  · exact (orchestrator_priority_amended "rice" (some "k")
      (.response true (some (.arr []))) (.response true (some (some [])))
      zeroTotals zeroTotals (by with_unfolding_all decide)).2.2
      (by with_unfolding_all decide) (by with_unfolding_all decide)

/-- C2 counterexample: a network-level rejection of the exact-match call
is not converted to absent — the client throws, the orchestrator's outer
catch turns the whole request into the 500 error response, and the
community-database source is never consulted. -/
theorem provider_failure_counterexample :
    fetchFromApiNinjas "chicken" (some "k") .reject = .thrown ∧
    fetchFromApiNinjas "chicken" (some "k") .reject ≠ .value none ∧
    handler "chicken" (some "k") .reject (.response true (some (some []))) =
      (.caught, false) := by
  with_unfolding_all decide

/-- C2 amended: only a non-success status is swallowed into absent (for
either client), letting control pass to the next source; a network-level
rejection or an unparseable body instead throws out of the client and is
caught by the handler's outer catch, failing the whole request with the
500 error and skipping the remaining source. -/
theorem provider_failure_amended (q k : String) (b : Option NinjasBody)
    (d : Option OffData) (nNet : FetchOutcome NinjasBody)
    (offNet : FetchOutcome OffData) (hq : jsTrim q ≠ "") (hk : k ≠ "") :
    fetchFromApiNinjas q (some k) (.response false b) = .value none ∧
    fetchFromOpenFoodFacts q (.response false d) = .value none ∧
    fetchFromApiNinjas q (some k) .reject = .thrown ∧
    fetchFromApiNinjas q (some k) (.response true none) = .thrown ∧
    fetchFromOpenFoodFacts q .reject = .thrown ∧
    fetchFromOpenFoodFacts q (.response true none) = .thrown ∧
    handler q (some k) .reject offNet = (.caught, false) ∧
    handler q (some k) (.response true none) offNet = (.caught, false) ∧
    handler q (some k) (.response false b) offNet =
      (offStep (jsTrim q) offNet, true) ∧
    (fetchFromApiNinjas (jsTrim q) (some k) nNet = .value none →
      handler q (some k) nNet .reject = (.caught, true)) := by
  refine ⟨?_, ?_, ?_, ?_, ?_, ?_, ?_, ?_, ?_, ?_⟩
  · simp [fetchFromApiNinjas, hk]
  · simp [fetchFromOpenFoodFacts]
  · simp [fetchFromApiNinjas, hk]
  · simp [fetchFromApiNinjas, hk]
  · simp [fetchFromOpenFoodFacts]
  · simp [fetchFromOpenFoodFacts]
  · simp [handler, fetchFromApiNinjas, hq, hk]
  · simp [handler, fetchFromApiNinjas, hq, hk]
  · simp [handler, fetchFromApiNinjas, hq, hk]
  · intro h1
    simp [handler, offStep, fetchFromOpenFoodFacts, hq, h1]

/-- C2 witness: the amended behavior at a concrete query and key — a 502
status yields absent from the exact-match client, and with the exact-match
client absent and the community fetch rejecting, the request ends in the
500 error with the community client having been invoked. -/
theorem provider_failure_witness :
    fetchFromApiNinjas "toast" (some "k")
        (.response false (some .nonArray)) = .value none ∧
    handler "toast" (some "k") (.response false (some .nonArray)) .reject =
      (.caught, true) := by
  constructor
  · exact (provider_failure_amended "toast" "k" (some .nonArray) none
      .reject .reject (by with_unfolding_all decide)
      (by with_unfolding_all decide)).1
  · have h := (provider_failure_amended "toast" "k" (some .nonArray) none
      (.response false (some .nonArray)) .reject
      (by with_unfolding_all decide) (by with_unfolding_all decide)).2.2.2.2.2.2.2.2.2
    exact h (by with_unfolding_all decide)

/-- C3: a missing (or empty) credential makes the exact-match client
return absent whatever the network would have done — no call is attempted,
so the orchestrator's outcome is independent of the exact-match network
environment — and the request is not failed: the orchestrator proceeds to
the community-database stage. -/
theorem missing_credential_disables_source (q : String)
    (nNet nNet' : FetchOutcome NinjasBody) (offNet : FetchOutcome OffData)
    (hq : jsTrim q ≠ "") :
    fetchFromApiNinjas q none nNet = .value none ∧
    fetchFromApiNinjas q (some "") nNet = .value none ∧
    handler q none nNet offNet = handler q none nNet' offNet ∧
    handler q none nNet offNet = (offStep (jsTrim q) offNet, true) := by
  refine ⟨?_, ?_, ?_, ?_⟩
  · simp [fetchFromApiNinjas]
  · simp [fetchFromApiNinjas]
  · simp [handler, fetchFromApiNinjas]
  · simp [handler, fetchFromApiNinjas, hq]

/-- C3 witness: with no credential and a rejecting exact-match network,
the request still reaches the community stage and returns its result. -/
theorem missing_credential_witness :
    fetchFromApiNinjas "apple" none .reject = .value none ∧
    handler "apple" none .reject (.response true (some (some []))) =
      (.payload zeroTotals "none", true) := by
  constructor
  · exact (missing_credential_disables_source "apple" .reject .reject
      (.response true (some (some []))) (by with_unfolding_all decide)).1
  · have h := (missing_credential_disables_source "apple" .reject .reject
      (.response true (some (some []))) (by with_unfolding_all decide)).2.2.2
    exact h.trans (by with_unfolding_all decide)

/-- C6 counterexample: `"banana"` contains the table key `"banana"`, yet
the returned source tag is the literal `"estimation (per medium)"`, not
`"local-table"`. -/
theorem local_table_tag_counterexample :
    substrOf "banana" (normText "banana") = true ∧
    (estimateFood "banana").source = "estimation (per medium)" ∧
    (estimateFood "banana").source ≠ "local-table" := by
  with_unfolding_all decide

/-- C6 amended: for every description whose normalized text contains some
reference-table key, the estimator returns the first matching entry scaled
by the first numeric token of the normalized text (default 1), with source
tag `"estimation (<unitLabel>)"` for that entry. -/
theorem local_table_match_amended (descr : String)
    (h : ∃ e ∈ MINI_DB, substrOf e.key (normText descr) = true) :
    ∃ hit, MINI_DB.find? (fun x => substrOf x.key (normText descr)) =
        some hit ∧
      substrOf hit.key (normText descr) = true ∧
      estimateFood descr =
        ⟨descr, hit.kcal * ((scanFirstNumber (normText descr).toList).getD 1),
          ⟨hit.p * ((scanFirstNumber (normText descr).toList).getD 1),
           hit.c * ((scanFirstNumber (normText descr).toList).getD 1),
           hit.f * ((scanFirstNumber (normText descr).toList).getD 1)⟩,
          "estimation (" ++ hit.unit ++ ")"⟩ := by
  have hs : (MINI_DB.find? (fun x => substrOf x.key (normText descr))).isSome
      := by
    rw [List.find?_isSome]
    obtain ⟨e, he, hek⟩ := h
    exact ⟨e, he, hek⟩
  obtain ⟨hit, hfind⟩ := Option.isSome_iff_exists.mp hs
  refine ⟨hit, hfind, ?_, ?_⟩
  · have hk := List.find?_some hfind
    simpa using hk
  · simp [estimateFood, hfind]

/-- C6 witness: the input `"2 egg"` matches the `"egg"` entry with
multiplier 2, giving 156 kcal and the `"estimation (per egg)"` tag. -/
theorem local_table_match_witness :
    estimateFood "2 egg" =
      ⟨"2 egg", 156, ⟨12, 1.2, 10⟩, "estimation (per egg)"⟩ := by
  obtain ⟨hit, hfind, hkey, heq⟩ := local_table_match_amended "2 egg"
    ⟨⟨"egg", 78, 6, 0.6, 5, "per egg"⟩, by with_unfolding_all decide,
      by with_unfolding_all decide⟩
  have hhit : hit = ⟨"egg", 78, 6, 0.6, 5, "per egg"⟩ := by
    have hfind' : MINI_DB.find? (fun x => substrOf x.key (normText "2 egg"))
        = some ⟨"egg", 78, 6, 0.6, 5, "per egg"⟩ := by
      with_unfolding_all decide
    rw [hfind'] at hfind
    exact (Option.some.injEq _ _).mp hfind.symm
  rw [heq, hhit]
  with_unfolding_all decide

/-- Reading of a nutrient field under the specification's summation rule:
absent (or null or zero) contributes 0, a number contributes itself. -/
def valOr0 : Option JsVal → ℚ
  | some (.vNum q) => q
  | _ => 0

/-- A field that cannot produce NaN under `num`: absent, numeric or null. -/
def isNumLike : Option JsVal → Bool
  | some (.vStr _) => false
  | _ => true

lemma num_of_numLike (v : Option JsVal) (h : isNumLike v = true) :
    num v = .fin (valOr0 v) := by
  match v with
  | none => simp [num, valOr0]
  | some (.vNum q) =>
    by_cases hq : q = 0
    · simp [num, valOr0, jvTruthy, hq]
    · simp [num, valOr0, jvTruthy, jsToNumber, hq]
  | some (.vStr s) => simp [isNumLike] at h
  | some .vNull => simp [num, valOr0, jvTruthy]

/-- Calorie sum under the specification's summation rule. -/
def sumCal (items : List NinjaItem) : ℚ :=
  (items.map fun it => valOr0 it.calories).sum

/-- Protein sum under the specification's summation rule. -/
def sumProt (items : List NinjaItem) : ℚ :=
  (items.map fun it => valOr0 it.protein_g).sum

/-- Carbohydrate sum under the specification's summation rule. -/
def sumCarb (items : List NinjaItem) : ℚ :=
  (items.map fun it => valOr0 it.carbohydrates_total_g).sum

/-- Fat sum under the specification's summation rule. -/
def sumFat (items : List NinjaItem) : ℚ :=
  (items.map fun it => valOr0 it.fat_total_g).sum

/-- All four fields of every item are NaN-free. -/
def numericItems (items : List NinjaItem) : Prop :=
  ∀ it ∈ items, isNumLike it.calories = true ∧ isNumLike it.protein_g = true
    ∧ isNumLike it.carbohydrates_total_g = true ∧
    isNumLike it.fat_total_g = true

lemma sumTotals_aux :
    ∀ items : List NinjaItem, numericItems items → ∀ a b c d : ℚ,
      items.foldl
        (fun t it =>
          ({ kcal := jadd t.kcal (num it.calories)
             protein_g := jadd t.protein_g (num it.protein_g)
             carbs_g := jadd t.carbs_g (num it.carbohydrates_total_g)
             fat_g := jadd t.fat_g (num it.fat_total_g) } : Totals))
        ⟨.fin a, .fin b, .fin c, .fin d⟩ =
      ⟨.fin (a + sumCal items), .fin (b + sumProt items),
       .fin (c + sumCarb items), .fin (d + sumFat items)⟩ := by
  intro items
  induction items with
  | nil =>
    intro _ a b c d
    simp [sumCal, sumProt, sumCarb, sumFat]
  | cons it rest ih =>
    intro h a b c d
    have hit := h it (List.mem_cons_self it rest)
    have hrest : numericItems rest := fun x hx =>
      h x (List.mem_cons_of_mem it hx)
    simp only [List.foldl_cons]
    have hstep :
        ({ kcal := jadd (JsNum.fin a) (num it.calories)
           protein_g := jadd (JsNum.fin b) (num it.protein_g)
           carbs_g := jadd (JsNum.fin c) (num it.carbohydrates_total_g)
           fat_g := jadd (JsNum.fin d) (num it.fat_total_g) } : Totals) =
        ⟨.fin (a + valOr0 it.calories), .fin (b + valOr0 it.protein_g),
         .fin (c + valOr0 it.carbohydrates_total_g),
         .fin (d + valOr0 it.fat_total_g)⟩ := by
      simp [num_of_numLike _ hit.1, num_of_numLike _ hit.2.1,
        num_of_numLike _ hit.2.2.1, num_of_numLike _ hit.2.2.2, jadd]
    rw [hstep, ih hrest]
    simp only [sumCal, sumProt, sumCarb, sumFat, List.map_cons,
      List.sum_cons, Totals.mk.injEq, JsNum.fin.injEq]
    refine ⟨by ring, by ring, by ring, by ring⟩

lemma sumTotals_numeric (items : List NinjaItem) (h : numericItems items) :
    sumTotals items =
      ⟨.fin (sumCal items), .fin (sumProt items), .fin (sumCarb items),
       .fin (sumFat items)⟩ := by
  have haux := sumTotals_aux items h 0 0 0 0
  simpa [sumTotals] using haux

/-- C7 counterexample: a present but non-numeric `calories` field (the
string `"n/a"`) is coerced to NaN, not treated as 0 — so instead of the
claimed absent result (sum 0 with the `kcal <= 0` guard), the client
returns a populated result whose kcal is NaN. -/
theorem ninjas_nonnumeric_counterexample :
    fetchFromApiNinjas "x" (some "k")
        (.response true (some (.arr [⟨some (.vStr "n/a"), none, none,
          none⟩]))) =
      .value (some ⟨.nan, .fin 0, .fin 0, .fin 0⟩) ∧
    fetchFromApiNinjas "x" (some "k")
        (.response true (some (.arr [⟨some (.vStr "n/a"), none, none,
          none⟩]))) ≠ .value none := by
  with_unfolding_all decide

/-- C7 amended: over items whose present fields are numeric (or null),
the exact-match client sums each nutrient field with absent and falsy
fields contributing 0 — in particular calories `[100, 50]` and protein
`[10, 5]` sum to 150 and 15 — and it returns absent whenever the summed
kcal is `<= 0`; a truthy non-numeric field would instead propagate NaN
into its total. -/
theorem ninjas_summation_amended (q k : String) (items : List NinjaItem)
    (hk : k ≠ "") (h : numericItems items) :
    sumTotals items =
      ⟨.fin (sumCal items), .fin (sumProt items), .fin (sumCarb items),
       .fin (sumFat items)⟩ ∧
    (sumCal items ≤ 0 →
      fetchFromApiNinjas q (some k) (.response true (some (.arr items))) =
        .value none) ∧
    (0 < sumCal items →
      fetchFromApiNinjas q (some k) (.response true (some (.arr items))) =
        .value (some ⟨.fin (sumCal items), .fin (sumProt items),
          .fin (sumCarb items), .fin (sumFat items)⟩)) := by
  have hsum := sumTotals_numeric items h
  refine ⟨hsum, ?_, ?_⟩
  · intro hle
    rcases items with _ | ⟨it, rest⟩
    · simp [fetchFromApiNinjas, hk]
    · simp [fetchFromApiNinjas, hk, hsum, jle, hle]
  · intro hlt
    rcases items with _ | ⟨it, rest⟩
    · simp [sumCal] at hlt
    · simp [fetchFromApiNinjas, hk, hsum, jle, not_le.mpr hlt,
        hlt.not_le]

/-- C7 witness: two numeric items with calories 100 and 50 and protein 10
and 5 sum to a populated 150-kcal, 15-protein result. -/
theorem ninjas_summation_witness :
    fetchFromApiNinjas "x" (some "k")
        (.response true (some (.arr
          [⟨some (.vNum 100), some (.vNum 10), none, none⟩,
           ⟨some (.vNum 50), some (.vNum 5), none, none⟩]))) =
      .value (some ⟨.fin 150, .fin 15, .fin 0, .fin 0⟩) := by
  have h := (ninjas_summation_amended "x" "k"
    [⟨some (.vNum 100), some (.vNum 10), none, none⟩,
     ⟨some (.vNum 50), some (.vNum 5), none, none⟩]
    (by with_unfolding_all decide)
    (by unfold numericItems; with_unfolding_all decide)).2.2
    (by with_unfolding_all decide)
  exact h.trans (by with_unfolding_all decide)

lemma ratVal_nonneg (ds fs : List Char) : 0 ≤ ratVal ds fs := by
  unfold ratVal
  positivity

lemma scanFirstNumber_nonneg :
    ∀ l : List Char, ∀ q : ℚ, scanFirstNumber l = some q → 0 ≤ q := by
  intro l
  induction l with
  | nil => intro q h; simp [scanFirstNumber] at h
  | cons c rest ih =>
    intro q h
    by_cases hc : c.isDigit
    · simp only [scanFirstNumber, hc, if_true] at h
      split at h
      · cases h
        exact ratVal_nonneg _ _
      · cases h
        positivity
    · simp only [scanFirstNumber, hc, if_false] at h
      exact ih q h

/-- C9: the local estimator is total and safe — for every input string it
returns a value whose kcal and three macro fields are all present (by
construction of `FoodEstimate`) and non-negative. -/
theorem estimateFood_total_nonneg (s : String) :
    0 ≤ (estimateFood s).kcal ∧ 0 ≤ (estimateFood s).macros.protein_g ∧
    0 ≤ (estimateFood s).macros.carbs_g ∧
    0 ≤ (estimateFood s).macros.fat_g := by
  have hq : 0 ≤ (scanFirstNumber (normText s).toList).getD 1 := by
    rcases hsc : scanFirstNumber (normText s).toList with _ | v
    · norm_num
    · simpa using scanFirstNumber_nonneg _ _ hsc
  rcases hfind : MINI_DB.find? (fun x => substrOf x.key (normText s))
    with _ | hit
  · simp only [estimateFood, hfind]
    split_ifs <;> refine ⟨by norm_num, by norm_num, by norm_num, by norm_num⟩
  · have hmem := List.mem_of_find?_eq_some hfind
    have hall : ∀ e ∈ MINI_DB, 0 ≤ e.kcal ∧ 0 ≤ e.p ∧ 0 ≤ e.c ∧ 0 ≤ e.f :=
      by with_unfolding_all decide
    have hvals := hall hit hmem
    simp only [estimateFood, hfind]
    exact ⟨mul_nonneg hvals.1 hq, mul_nonneg hvals.2.1 hq,
      mul_nonneg hvals.2.2.1 hq, mul_nonneg hvals.2.2.2 hq⟩
